import Mathlib

/-!
Shallow embedding of the douyinVd gateway handlers.

The repository has three handler variants:
- `src/serve.ts` (namespace `Serve`): the streaming media proxy;
- `src/unnamed/part_000` (namespace `Part000`): the plain URL pass-through variant;
- `src/unnamed/part_001` (namespace `Part001`): the type-aware variant branching on
  the resolved content type (`video` / `img`).

HTTP headers are modelled as a case-insensitive map from names to values, mirroring
the WHATWG `Headers` class used by the code (`set` replaces, `get` returns null when
absent, names are matched case-insensitively).  The external effects (the resolver
functions `getVideoInfo` / `getVideoUrl` from `douyin.ts`, and `fetch`) are modelled
as an environment of results; the handler additionally returns a trace: how many
resolver calls it made and which upstream fetches it performed (URL and request
headers), so that claims about the upstream leg are statable.
-/

/-- ASCII lowercasing of one character, for case-insensitive header names. -/
def lowerChar (c : Char) : Char :=
  if 65 ≤ c.toNat ∧ c.toNat ≤ 90 then Char.ofNat (c.toNat + 32) else c

/-- ASCII lowercasing of a header name. -/
def lowerName (s : String) : String := ⟨s.data.map lowerChar⟩

/-- A case-insensitive header map, as the WHATWG Headers class behaves. -/
structure Headers where
  lookup : String → Option String

/-- The empty header map (`new Headers()`). -/
def Headers.empty : Headers := ⟨fun _ => none⟩

/-- `headers.get(name)`: case-insensitive lookup, null when absent. -/
def Headers.get (h : Headers) (name : String) : Option String :=
  h.lookup (lowerName name)

/-- `headers.has(name)`. -/
def Headers.has (h : Headers) (name : String) : Bool :=
  (h.get name).isSome

/-- `headers.set(name, value)`: replaces any existing value for the name. -/
def Headers.set (h : Headers) (name value : String) : Headers :=
  ⟨fun k => if k = lowerName name then some value else h.lookup k⟩

/-- JavaScript `a || b` on a nullable string: null and the empty string are falsy. -/
def jsOr (o : Option String) (d : String) : String :=
  match o with
  | none => d
  | some s => if s = "" then d else s

/-- JavaScript truthiness of a nullable string (`!x` is true iff x is null/undefined or ""). -/
def truthyStr (o : Option String) : Bool :=
  match o with
  | none => false
  | some s => s ≠ ""

/-- A response body: either a text (string) body or the relayed upstream byte stream,
whose representation is the abstract type β. -/
inductive Body (β : Type) where
  | text : String → Body β
  | stream : β → Body β
deriving DecidableEq

/-- An outbound HTTP response. -/
structure Response (β : Type) where
  status : Nat
  body : Option (Body β)
  headers : Headers

/-- The `Response` constructor of the Fetch standard: when the body is a string and
no Content-Type header was supplied, the platform sets
`Content-Type: text/plain;charset=UTF-8`. -/
def mkResponse {β : Type} (body : Option (Body β)) (status : Nat) (headers : Headers) :
    Response β :=
  match body with
  | some (Body.text _) =>
      if headers.has "Content-Type" then ⟨status, body, headers⟩
      else ⟨status, body, headers.set "Content-Type" "text/plain;charset=UTF-8"⟩
  | _ => ⟨status, body, headers⟩

/-- The second HTTP leg's result (`fetch` resolving to a `Response`). -/
structure UpstreamResponse (β : Type) where
  status : Nat
  statusText : String
  headers : Headers
  body : Option β

/-- `response.ok` of the Fetch standard: status in the range 200-299. -/
def UpstreamResponse.ok {β : Type} (r : UpstreamResponse β) : Bool :=
  decide (200 ≤ r.status ∧ r.status ≤ 299)

/-- The parts of the inbound request the handlers read: the method, the `url`
query parameter (`searchParams.get("url")`), the presence of the `data` query
parameter (`searchParams.has("data")`), and the request headers. -/
structure Request where
  method : String
  urlParam : Option String
  hasData : Bool
  headers : Headers

/-- A handler's outcome: the response together with an effect trace, namely the
number of resolver calls (`getVideoInfo`/`getVideoUrl`) and the list of upstream
media fetches performed (fetched URL and request headers). -/
structure HandlerResult (β : Type) where
  response : Response β
  resolverCalls : Nat
  fetchCalls : List (String × Headers)

namespace Serve

/-- `createCorsHeaders` of src/serve.ts. -/
def createCorsHeaders : Headers :=
  ((((Headers.empty.set "Access-Control-Allow-Origin" "*").set
      "Access-Control-Allow-Methods" "GET, OPTIONS").set
      "Access-Control-Allow-Headers" "Content-Type, Range").set
      "Access-Control-Expose-Headers" "Content-Length, Content-Range")

/-- The environment of external effects for src/serve.ts: the result `getVideoInfo`
would produce (α is the opaque video-info record), JSON.stringify on it, the result
of `getVideoUrl` (nullable string, may throw), and the result of the single media
`fetch` (may reject). -/
structure Env (α β : Type) where
  getVideoInfoResult : Except Unit α
  stringify : α → String
  getVideoUrlResult : Except Unit (Option String)
  fetchResult : Except Unit (UpstreamResponse β)

/-- The browser-like User-Agent string the proxy sends upstream. -/
def uaString : String :=
  "Mozilla/5.0 (Windows NT 10.0; Win64; x64) AppleWebKit/537.36 (KHTML, like Gecko) Chrome/107.0.0.0 Safari/537.36"

/-- The headers of the upstream media request: Referer and User-Agent always,
plus the caller's Range header forwarded when present. -/
def videoRequestHeaders (req : Request) : Headers :=
  let h := (Headers.empty.set "Referer" "https://www.douyin.com/").set "User-Agent" uaString
  if req.headers.has "range" then h.set "Range" ((req.headers.get "range").getD "") else h

/-- The outbound headers of a successful relay: fresh CORS headers, Content-Type
copied from upstream (default video/mp4), Content-Length copied (default 0),
Accept-Ranges always bytes, Content-Range copied when upstream supplied one. -/
def outboundHeaders {β : Type} (vr : UpstreamResponse β) : Headers :=
  let h := ((createCorsHeaders.set "Content-Type"
      (jsOr (vr.headers.get "Content-Type") "video/mp4")).set "Content-Length"
      (jsOr (vr.headers.get "Content-Length") "0")).set "Accept-Ranges" "bytes"
  if vr.headers.has "content-range" then
    h.set "Content-Range" ((vr.headers.get "content-range").getD "")
  else h

/-- The generic 500 of the proxy path's catch block. -/
def proxyErrorResponse {β : Type} (cors : Headers) : Response β :=
  mkResponse (some (Body.text "An internal server error occurred while proxying video."))
    500 cors

/-- The handler of src/serve.ts. -/
def handler {α β : Type} (env : Env α β) (req : Request) : HandlerResult β :=
  let corsHeaders := createCorsHeaders
  if req.method = "OPTIONS" then
    ⟨mkResponse none 204 corsHeaders, 0, []⟩
  else if truthyStr req.urlParam = false then
    ⟨mkResponse (some (Body.text "Missing \x27url\x27 parameter.")) 400
      (corsHeaders.set "Content-Type" "text/plain; charset=utf-8"), 0, []⟩
  else if req.hasData then
    match env.getVideoInfoResult with
    | Except.ok info =>
        ⟨mkResponse (some (Body.text (env.stringify info))) 200
          (corsHeaders.set "Content-Type" "application/json; charset=utf-8"), 1, []⟩
    | Except.error _ =>
        ⟨mkResponse (some (Body.text "Error fetching video info.")) 500 corsHeaders, 1, []⟩
  else
    match env.getVideoUrlResult with
    | Except.error _ => ⟨proxyErrorResponse corsHeaders, 1, []⟩
    | Except.ok u =>
      if truthyStr u = false then
        ⟨proxyErrorResponse corsHeaders, 1, []⟩
      else
        let vurl := u.getD ""
        let vh := videoRequestHeaders req
        match env.fetchResult with
        | Except.error _ => ⟨proxyErrorResponse corsHeaders, 1, [(vurl, vh)]⟩
        | Except.ok vr =>
          match vr.body with
          | none => ⟨proxyErrorResponse corsHeaders, 1, [(vurl, vh)]⟩
          | some b =>
            if vr.ok then
              ⟨mkResponse (some (Body.stream b)) vr.status (outboundHeaders vr), 1,
                [(vurl, vh)]⟩
            else
              ⟨proxyErrorResponse corsHeaders, 1, [(vurl, vh)]⟩

end Serve

namespace Part000

/-- `createCorsHeaders` of src/unnamed/part_000: only three headers, the Range
request header is not allowed and no response headers are exposed. -/
def createCorsHeaders : Headers :=
  (((Headers.empty.set "Access-Control-Allow-Origin" "*").set
      "Access-Control-Allow-Methods" "GET, OPTIONS").set
      "Access-Control-Allow-Headers" "Content-Type")

/-- The environment of external effects for src/unnamed/part_000: `getVideoInfo`
(α opaque), JSON.stringify, and `getVideoUrl` (nullable string, may throw).
This variant performs no upstream media fetch. -/
structure Env (α : Type) where
  getVideoInfoResult : Except Unit α
  stringify : α → String
  getVideoUrlResult : Except Unit (Option String)

/-- The handler of src/unnamed/part_000: answers the no-data path with the
resolved video URL as a text body instead of relaying media bytes. -/
def handler {α β : Type} (env : Env α) (req : Request) : HandlerResult β :=
  let corsHeaders := createCorsHeaders
  if req.method = "OPTIONS" then
    ⟨mkResponse none 204 corsHeaders, 0, []⟩
  else if truthyStr req.urlParam = false then
    ⟨mkResponse (some (Body.text "Missing \x27url\x27 parameter.")) 400
      (corsHeaders.set "Content-Type" "text/plain; charset=utf-8"), 0, []⟩
  else if req.hasData then
    match env.getVideoInfoResult with
    | Except.ok info =>
        ⟨mkResponse (some (Body.text (env.stringify info))) 200
          (corsHeaders.set "Content-Type" "application/json; charset=utf-8"), 1, []⟩
    | Except.error _ =>
        ⟨mkResponse (some (Body.text "An internal server error occurred.")) 500
          (corsHeaders.set "Content-Type" "text/plain; charset=utf-8"), 1, []⟩
  else
    match env.getVideoUrlResult with
    | Except.ok u =>
        ⟨mkResponse (u.map Body.text) 200
          (corsHeaders.set "Content-Type" "text/plain; charset=utf-8"), 1, []⟩
    | Except.error _ =>
        ⟨mkResponse (some (Body.text "An internal server error occurred.")) 500
          (corsHeaders.set "Content-Type" "text/plain; charset=utf-8"), 1, []⟩

end Part000

namespace Part001

/-- `createCorsHeaders` of src/unnamed/part_001 (same four headers as serve.ts). -/
def createCorsHeaders : Headers :=
  ((((Headers.empty.set "Access-Control-Allow-Origin" "*").set
      "Access-Control-Allow-Methods" "GET, OPTIONS").set
      "Access-Control-Allow-Headers" "Content-Type, Range").set
      "Access-Control-Expose-Headers" "Content-Length, Content-Range")

/-- The resolved metadata record of src/unnamed/part_001 as the handler reads it:
the `type` field (possibly absent), the `video_url` field (possibly absent or
empty), and the remaining opaque fields γ. -/
structure DyData (γ : Type) where
  type : Option String
  video_url : Option String
  extra : γ

/-- The environment of external effects for src/unnamed/part_001: `getVideoInfo`
(whose record this variant inspects), JSON.stringify on it, and the result of the
single media `fetch`. -/
structure Env (γ β : Type) where
  getVideoInfoResult : Except Unit (DyData γ)
  stringify : DyData γ → String
  fetchResult : Except Unit (UpstreamResponse β)

/-- The headers of the upstream media request (identical to serve.ts). -/
def videoRequestHeaders (req : Request) : Headers :=
  let h := (Headers.empty.set "Referer" "https://www.douyin.com/").set "User-Agent"
    Serve.uaString
  if req.headers.has "range" then h.set "Range" ((req.headers.get "range").getD "") else h

/-- The outbound headers of a successful relay (identical policy to serve.ts). -/
def outboundHeaders {β : Type} (vr : UpstreamResponse β) : Headers :=
  let h := ((createCorsHeaders.set "Content-Type"
      (jsOr (vr.headers.get "Content-Type") "video/mp4")).set "Content-Length"
      (jsOr (vr.headers.get "Content-Length") "0")).set "Accept-Ranges" "bytes"
  if vr.headers.has "content-range" then
    h.set "Content-Range" ((vr.headers.get "content-range").getD "")
  else h

/-- The generic 500 of this variant's catch block. -/
def genericErrorResponse {β : Type} (cors : Headers) : Response β :=
  mkResponse (some (Body.text "服务器在处理请求时发生内部错误。")) 500 cors

/-- The 400 body of the image-gallery branch. -/
def imgMessage : String :=
  "这是一个图文帖子。请使用带有 \x27&data=true\x27 的接口来获取图片链接。"

/-- The handler of src/unnamed/part_001: resolves metadata first, serves JSON when
`data` is requested, otherwise branches on the resolved content type. -/
def handler {γ β : Type} (env : Env γ β) (req : Request) : HandlerResult β :=
  let corsHeaders := createCorsHeaders
  if req.method = "OPTIONS" then
    ⟨mkResponse none 204 corsHeaders, 0, []⟩
  else if truthyStr req.urlParam = false then
    ⟨mkResponse (some (Body.text "Missing \x27url\x27 parameter.")) 400 corsHeaders, 0, []⟩
  else
    match env.getVideoInfoResult with
    | Except.error _ => ⟨genericErrorResponse corsHeaders, 1, []⟩
    | Except.ok d =>
      if req.hasData then
        ⟨mkResponse (some (Body.text (env.stringify d))) 200
          (corsHeaders.set "Content-Type" "application/json; charset=utf-8"), 1, []⟩
      else if d.type = some "video" ∧ truthyStr d.video_url = true then
        let vurl := d.video_url.getD ""
        let vh := videoRequestHeaders req
        match env.fetchResult with
        | Except.error _ => ⟨genericErrorResponse corsHeaders, 1, [(vurl, vh)]⟩
        | Except.ok vr =>
          match vr.body with
          | none => ⟨genericErrorResponse corsHeaders, 1, [(vurl, vh)]⟩
          | some b =>
            if vr.ok then
              ⟨mkResponse (some (Body.stream b)) vr.status (outboundHeaders vr), 1,
                [(vurl, vh)]⟩
            else
              ⟨genericErrorResponse corsHeaders, 1, [(vurl, vh)]⟩
      else if d.type = some "img" then
        ⟨mkResponse (some (Body.text imgMessage)) 400 corsHeaders, 1, []⟩
      else
        ⟨genericErrorResponse corsHeaders, 1, []⟩

end Part001

/-- The full CORS header set of §4.2 of the spec: allow any origin, methods
GET and OPTIONS, request headers Content-Type and Range, and expose
Content-Length and Content-Range. -/
def fullCorsSet (h : Headers) : Prop :=
  h.get "access-control-allow-origin" = some "*" ∧
  h.get "access-control-allow-methods" = some "GET, OPTIONS" ∧
  h.get "access-control-allow-headers" = some "Content-Type, Range" ∧
  h.get "access-control-expose-headers" = some "Content-Length, Content-Range"

/-- The smaller CORS header set the part_000 variant actually attaches: Range is
not an allowed request header and no response headers are exposed. -/
def part000CorsSet (h : Headers) : Prop :=
  h.get "access-control-allow-origin" = some "*" ∧
  h.get "access-control-allow-methods" = some "GET, OPTIONS" ∧
  h.get "access-control-allow-headers" = some "Content-Type"

/-! Concrete sample requests, upstream responses and environments, used to
evaluate the theorems on closed inputs. The opaque metadata and byte-stream
types are instantiated with `Unit`. -/

/-- A sample share URL. -/
def sampleShareUrl : String := "https://v.douyin.com/abc123/"

/-- A sample resolved direct media URL. -/
def sampleVideoUrl : String := "https://aweme.example.com/video.mp4"

/-- An OPTIONS preflight request with no query parameters at all. -/
def optionsReq : Request := ⟨"OPTIONS", none, false, Headers.empty⟩

/-- A GET media-relay request with no Range header. -/
def getReq : Request := ⟨"GET", some sampleShareUrl, false, Headers.empty⟩

/-- A GET media-relay request with caller header Range: bytes=100-199. -/
def getRangeReq : Request :=
  ⟨"GET", some sampleShareUrl, false, Headers.empty.set "Range" "bytes=100-199"⟩

/-- A GET request missing the url query parameter. -/
def getNoUrlReq : Request := ⟨"GET", none, false, Headers.empty⟩

/-- A GET metadata request (data parameter present). -/
def getDataReq : Request := ⟨"GET", some sampleShareUrl, true, Headers.empty⟩

/-- A 206 upstream response carrying Content-Range: bytes 100-199/5000 and a body. -/
def upstream206 : UpstreamResponse Unit :=
  ⟨206, "Partial Content",
    (Headers.empty.set "Content-Range" "bytes 100-199/5000").set "Content-Length" "100",
    some ()⟩

/-- A 200 upstream response with a body, a Content-Length header and no
Content-Type header. -/
def upstream200 : UpstreamResponse Unit :=
  ⟨200, "OK", Headers.empty.set "Content-Length" "5000", some ()⟩

/-- A 404 upstream response (with a body, but a failure status). -/
def upstream404 : UpstreamResponse Unit := ⟨404, "Not Found", Headers.empty, some ()⟩

/-- A 203 upstream response with a body: a 2xx status that is neither 200 nor 206. -/
def upstream203 : UpstreamResponse Unit :=
  ⟨203, "Non-Authoritative Information", Headers.empty, some ()⟩

/-- A serve.ts environment: resolver succeeds, upstream answers 206. -/
def serveEnv206 : Serve.Env Unit Unit :=
  ⟨Except.ok (), fun _ => "sample-json", Except.ok (some sampleVideoUrl),
    Except.ok upstream206⟩

/-- A serve.ts environment: resolver succeeds, upstream answers 200. -/
def serveEnv200 : Serve.Env Unit Unit :=
  ⟨Except.ok (), fun _ => "sample-json", Except.ok (some sampleVideoUrl),
    Except.ok upstream200⟩

/-- A serve.ts environment: resolver succeeds, upstream answers 203. -/
def serveEnv203 : Serve.Env Unit Unit :=
  ⟨Except.ok (), fun _ => "sample-json", Except.ok (some sampleVideoUrl),
    Except.ok upstream203⟩

/-- A serve.ts environment: resolver succeeds, upstream answers 404. -/
def serveEnv404 : Serve.Env Unit Unit :=
  ⟨Except.ok (), fun _ => "sample-json", Except.ok (some sampleVideoUrl),
    Except.ok upstream404⟩

/-- A serve.ts environment whose resolver calls fail. -/
def serveEnvErr : Serve.Env Unit Unit :=
  ⟨Except.error (), fun _ => "sample-json", Except.error (), Except.ok upstream200⟩

/-- A resolved metadata record of type video with a non-empty video_url. -/
def dyVideo : Part001.DyData Unit := ⟨some "video", some sampleVideoUrl, ()⟩

/-- A resolved metadata record of type img (an image-gallery post). -/
def dyImg : Part001.DyData Unit := ⟨some "img", none, ()⟩

/-- A resolved metadata record of type video whose video_url is empty. -/
def dyVideoNoUrl : Part001.DyData Unit := ⟨some "video", some "", ()⟩

/-- A part_001 environment: resolver yields a video record, upstream answers 206. -/
def p1Env206 : Part001.Env Unit Unit :=
  ⟨Except.ok dyVideo, fun _ => "sample-json", Except.ok upstream206⟩

/-- A part_001 environment: resolver yields a video record, upstream answers 200. -/
def p1Env200 : Part001.Env Unit Unit :=
  ⟨Except.ok dyVideo, fun _ => "sample-json", Except.ok upstream200⟩

/-- A part_001 environment: resolver yields a video record, upstream answers 404. -/
def p1Env404 : Part001.Env Unit Unit :=
  ⟨Except.ok dyVideo, fun _ => "sample-json", Except.ok upstream404⟩

/-- A part_001 environment: resolver yields an image-gallery record. -/
def p1EnvImg : Part001.Env Unit Unit :=
  ⟨Except.ok dyImg, fun _ => "sample-json", Except.ok upstream200⟩

/-- A part_001 environment: resolver yields a video record with empty video_url. -/
def p1EnvNoUrl : Part001.Env Unit Unit :=
  ⟨Except.ok dyVideoNoUrl, fun _ => "sample-json", Except.ok upstream200⟩

/-- A part_001 environment whose resolver call fails. -/
def p1EnvErr : Part001.Env Unit Unit :=
  ⟨Except.error (), fun _ => "sample-json", Except.ok upstream200⟩

/-- A part_000 environment: both resolver calls succeed. -/
def p0EnvOk : Part000.Env Unit :=
  ⟨Except.ok (), fun _ => "sample-json", Except.ok (some sampleVideoUrl)⟩

/-! Helper lemmas: ASCII lowercasing of the header-name literals the code uses,
and how `Headers.get` interacts with `Headers.set`. -/

@[simp] theorem lowerName_acao :
    lowerName "Access-Control-Allow-Origin" = "access-control-allow-origin" := rfl

@[simp] theorem lowerName_acam :
    lowerName "Access-Control-Allow-Methods" = "access-control-allow-methods" := rfl

@[simp] theorem lowerName_acah :
    lowerName "Access-Control-Allow-Headers" = "access-control-allow-headers" := rfl

@[simp] theorem lowerName_aceh :
    lowerName "Access-Control-Expose-Headers" = "access-control-expose-headers" := rfl

@[simp] theorem lowerName_ct : lowerName "Content-Type" = "content-type" := rfl

@[simp] theorem lowerName_cl : lowerName "Content-Length" = "content-length" := rfl

@[simp] theorem lowerName_cr : lowerName "Content-Range" = "content-range" := rfl

@[simp] theorem lowerName_arng : lowerName "Accept-Ranges" = "accept-ranges" := rfl

@[simp] theorem lowerName_rng : lowerName "Range" = "range" := rfl

@[simp] theorem lowerName_ref : lowerName "Referer" = "referer" := rfl

@[simp] theorem lowerName_ua : lowerName "User-Agent" = "user-agent" := rfl

@[simp] theorem lowerName_acao_low :
    lowerName "access-control-allow-origin" = "access-control-allow-origin" := rfl

@[simp] theorem lowerName_acam_low :
    lowerName "access-control-allow-methods" = "access-control-allow-methods" := rfl

@[simp] theorem lowerName_acah_low :
    lowerName "access-control-allow-headers" = "access-control-allow-headers" := rfl

@[simp] theorem lowerName_aceh_low :
    lowerName "access-control-expose-headers" = "access-control-expose-headers" := rfl

@[simp] theorem lowerName_ct_low : lowerName "content-type" = "content-type" := rfl

@[simp] theorem lowerName_cl_low : lowerName "content-length" = "content-length" := rfl

@[simp] theorem lowerName_cr_low : lowerName "content-range" = "content-range" := rfl

@[simp] theorem lowerName_arng_low : lowerName "accept-ranges" = "accept-ranges" := rfl

@[simp] theorem lowerName_rng_low : lowerName "range" = "range" := rfl

@[simp] theorem lowerName_ref_low : lowerName "referer" = "referer" := rfl

@[simp] theorem lowerName_ua_low : lowerName "user-agent" = "user-agent" := rfl

@[simp] theorem Headers.get_set (h : Headers) (n v m : String) :
    (h.set n v).get m = if lowerName m = lowerName n then some v else h.get m := by
  simp [Headers.get, Headers.set]

@[simp] theorem Headers.get_empty (n : String) : Headers.empty.get n = none := rfl

@[simp] theorem mkResponse_status {β : Type} (b : Option (Body β)) (s : Nat) (h : Headers) :
    (mkResponse b s h).status = s := by
  unfold mkResponse
  rcases b with _ | b
  · rfl
  · rcases b with t | st
    · dsimp only
      split <;> rfl
    · rfl

@[simp] theorem mkResponse_body {β : Type} (b : Option (Body β)) (s : Nat) (h : Headers) :
    (mkResponse b s h).body = b := by
  unfold mkResponse
  rcases b with _ | b
  · rfl
  · rcases b with t | st
    · dsimp only
      split <;> rfl
    · rfl

@[simp] theorem mkResponse_headers_none {β : Type} (s : Nat) (h : Headers) :
    (mkResponse (β := β) none s h).headers = h := rfl

@[simp] theorem mkResponse_headers_stream {β : Type} (b : β) (s : Nat) (h : Headers) :
    (mkResponse (some (Body.stream b)) s h).headers = h := rfl

/-- The upstream request headers carry the caller's Range value when the caller
sent one. -/
theorem videoRequestHeaders_range (req : Request) (hr : req.headers.has "range" = true) :
    (Serve.videoRequestHeaders req).get "range" = req.headers.get "range" := by
  rcases hs : req.headers.get "range" with _ | s
  · exact absurd hr (by simp [Headers.has, hs])
  · simp [Serve.videoRequestHeaders, Headers.has, hs, Headers.get_set]

/-- The upstream request headers carry no Range header when the caller sent none. -/
theorem videoRequestHeaders_no_range (req : Request)
    (hr : req.headers.has "range" = false) :
    (Serve.videoRequestHeaders req).has "range" = false := by
  simp [Serve.videoRequestHeaders, Headers.has] at hr ⊢
  simp [hr, Headers.get_set]

/-- The upstream request headers always carry the douyin Referer and the
browser-like User-Agent. -/
theorem videoRequestHeaders_identity (req : Request) :
    (Serve.videoRequestHeaders req).get "referer" = some "https://www.douyin.com/" ∧
    (Serve.videoRequestHeaders req).get "user-agent" = some Serve.uaString := by
  unfold Serve.videoRequestHeaders
  split <;> simp [Headers.get_set]

/-- The part_001 upstream request headers are those of serve.ts. -/
theorem part001_videoRequestHeaders_eq (req : Request) :
    Part001.videoRequestHeaders req = Serve.videoRequestHeaders req := rfl

/-- C9: every OPTIONS request is answered with status 204, no body, exactly the CORS
policy's headers, zero resolver calls and zero upstream fetches — even when the url
parameter is absent — in both the serve.ts handler and the type-aware variant. -/
theorem claimC9 :
    (∀ (α β : Type) (env : Serve.Env α β) (req : Request), req.method = "OPTIONS" →
      (Serve.handler env req).response.status = 204 ∧
      (Serve.handler env req).response.body = none ∧
      (Serve.handler env req).response.headers = Serve.createCorsHeaders ∧
      (Serve.handler env req).resolverCalls = 0 ∧
      (Serve.handler env req).fetchCalls = []) ∧
    (∀ (γ β : Type) (env : Part001.Env γ β) (req : Request), req.method = "OPTIONS" →
      (Part001.handler env req).response.status = 204 ∧
      (Part001.handler env req).response.body = none ∧
      (Part001.handler env req).response.headers = Part001.createCorsHeaders ∧
      (Part001.handler env req).resolverCalls = 0 ∧
      (Part001.handler env req).fetchCalls = []) := by
  constructor
  · intro α β env req hm
    simp [Serve.handler, hm, mkResponse]
  · intro γ β env req hm
    simp [Part001.handler, hm, mkResponse]

/-- C9 witness: the OPTIONS preflight with no query parameters, evaluated in the
206 environment. -/
theorem claimC9_witness :
    optionsReq.method = "OPTIONS" ∧
    ((Serve.handler serveEnv206 optionsReq).response.status = 204 ∧
      (Serve.handler serveEnv206 optionsReq).response.body = none ∧
      (Serve.handler serveEnv206 optionsReq).response.headers = Serve.createCorsHeaders ∧
      (Serve.handler serveEnv206 optionsReq).resolverCalls = 0 ∧
      (Serve.handler serveEnv206 optionsReq).fetchCalls = []) :=
  ⟨rfl, claimC9.1 Unit Unit serveEnv206 optionsReq rfl⟩

/-- C5: every non-OPTIONS request without a url query parameter gets a 400
text/plain response and triggers no resolver call, in both the serve.ts handler
and the type-aware variant (which gets its text/plain type from the Response
constructor's default). -/
theorem claimC5 :
    (∀ (α β : Type) (env : Serve.Env α β) (req : Request),
      req.method ≠ "OPTIONS" → truthyStr req.urlParam = false →
      (Serve.handler env req).response.status = 400 ∧
      (Serve.handler env req).response.headers.get "content-type"
        = some "text/plain; charset=utf-8" ∧
      (Serve.handler env req).resolverCalls = 0) ∧
    (∀ (γ β : Type) (env : Part001.Env γ β) (req : Request),
      req.method ≠ "OPTIONS" → truthyStr req.urlParam = false →
      (Part001.handler env req).response.status = 400 ∧
      (Part001.handler env req).response.headers.get "content-type"
        = some "text/plain;charset=UTF-8" ∧
      (Part001.handler env req).resolverCalls = 0) := by
  constructor
  · intro α β env req hm hu
    simp [Serve.handler, hm, hu, mkResponse, Headers.has, Headers.get_set,
      Serve.createCorsHeaders]
  · intro γ β env req hm hu
    simp [Part001.handler, hm, hu, mkResponse, Headers.has, Headers.get_set,
      Part001.createCorsHeaders]

/-- C5 witness: a GET request with no url parameter. -/
theorem claimC5_witness :
    getNoUrlReq.method ≠ "OPTIONS" ∧ truthyStr getNoUrlReq.urlParam = false ∧
    ((Serve.handler serveEnv206 getNoUrlReq).response.status = 400 ∧
      (Serve.handler serveEnv206 getNoUrlReq).response.headers.get "content-type"
        = some "text/plain; charset=utf-8" ∧
      (Serve.handler serveEnv206 getNoUrlReq).resolverCalls = 0) :=
  ⟨by decide, rfl, claimC5.1 Unit Unit serveEnv206 getNoUrlReq (by decide) rfl⟩

/-- C7: on the metadata path (data parameter present), a successful resolver call
yields status 200 with the JSON serialization of the resolver's output and content
type application/json, and a failing resolver call yields a 500 with a generic
message, in both the serve.ts handler and the type-aware variant. -/
theorem claimC7 :
    (∀ (α β : Type) (env : Serve.Env α β) (req : Request),
      req.method ≠ "OPTIONS" → truthyStr req.urlParam = true → req.hasData = true →
      (∀ info, env.getVideoInfoResult = Except.ok info →
        (Serve.handler env req).response.status = 200 ∧
        (Serve.handler env req).response.body = some (Body.text (env.stringify info)) ∧
        (Serve.handler env req).response.headers.get "content-type"
          = some "application/json; charset=utf-8") ∧
      (env.getVideoInfoResult = Except.error () →
        (Serve.handler env req).response.status = 500 ∧
        (Serve.handler env req).response.body
          = some (Body.text "Error fetching video info."))) ∧
    (∀ (γ β : Type) (env : Part001.Env γ β) (req : Request),
      req.method ≠ "OPTIONS" → truthyStr req.urlParam = true → req.hasData = true →
      (∀ d, env.getVideoInfoResult = Except.ok d →
        (Part001.handler env req).response.status = 200 ∧
        (Part001.handler env req).response.body = some (Body.text (env.stringify d)) ∧
        (Part001.handler env req).response.headers.get "content-type"
          = some "application/json; charset=utf-8") ∧
      (env.getVideoInfoResult = Except.error () →
        (Part001.handler env req).response.status = 500 ∧
        (Part001.handler env req).response.body
          = some (Body.text "服务器在处理请求时发生内部错误。"))) := by
  constructor
  · intro α β env req hm hu hd
    constructor
    · intro info hi
      simp [Serve.handler, hm, hu, hd, hi, mkResponse, Headers.has, Headers.get_set,
        Serve.createCorsHeaders]
    · intro hi
      simp [Serve.handler, hm, hu, hd, hi, mkResponse, Headers.has, Headers.get_set,
        Serve.createCorsHeaders]
  · intro γ β env req hm hu hd
    constructor
    · intro d hi
      simp [Part001.handler, hm, hu, hd, hi, mkResponse, Headers.has, Headers.get_set,
        Part001.createCorsHeaders]
    · intro hi
      simp [Part001.handler, hm, hu, hd, hi, Part001.genericErrorResponse, mkResponse,
        Headers.has, Headers.get_set, Part001.createCorsHeaders]

/-- C7 witness: a metadata request against the 206 environment (resolver succeeds). -/
theorem claimC7_witness :
    getDataReq.hasData = true ∧
    serveEnv206.getVideoInfoResult = Except.ok () ∧
    ((Serve.handler serveEnv206 getDataReq).response.status = 200 ∧
      (Serve.handler serveEnv206 getDataReq).response.body
        = some (Body.text (serveEnv206.stringify ())) ∧
      (Serve.handler serveEnv206 getDataReq).response.headers.get "content-type"
        = some "application/json; charset=utf-8") :=
  ⟨rfl, rfl, (claimC7.1 Unit Unit serveEnv206 getDataReq (by decide) rfl rfl).1 () rfl⟩

/-- The serve.ts CORS headers satisfy the full §4.2 set. -/
theorem fullCors_create : fullCorsSet Serve.createCorsHeaders := by
  simp [fullCorsSet, Serve.createCorsHeaders, Headers.get_set]

/-- Setting a non-CORS header preserves the full CORS set. -/
theorem fullCorsSet_set (h : Headers) (n v : String) (hf : fullCorsSet h)
    (h1 : lowerName n ≠ "access-control-allow-origin")
    (h2 : lowerName n ≠ "access-control-allow-methods")
    (h3 : lowerName n ≠ "access-control-allow-headers")
    (h4 : lowerName n ≠ "access-control-expose-headers") :
    fullCorsSet (h.set n v) := by
  obtain ⟨c1, c2, c3, c4⟩ := hf
  refine ⟨?_, ?_, ?_, ?_⟩ <;>
    simp [Headers.get_set, Ne.symm h1, Ne.symm h2, Ne.symm h3, Ne.symm h4, c1, c2, c3, c4]

/-- The Response constructor's default Content-Type preserves the full CORS set. -/
theorem fullCorsSet_mkResponse {β : Type} (b : Option (Body β)) (s : Nat) (h : Headers)
    (hf : fullCorsSet h) : fullCorsSet (mkResponse b s h).headers := by
  unfold mkResponse
  rcases b with _ | b
  · exact hf
  · rcases b with t | st
    · dsimp only
      split
      · exact hf
      · exact fullCorsSet_set h _ _ hf (by decide) (by decide) (by decide) (by decide)
    · exact hf

/-- The outbound relay headers of serve.ts satisfy the full CORS set. -/
theorem fullCors_outbound {β : Type} (vr : UpstreamResponse β) :
    fullCorsSet (Serve.outboundHeaders vr) := by
  unfold Serve.outboundHeaders fullCorsSet
  split <;> simp [Headers.get_set, Serve.createCorsHeaders]

/-- The outbound relay headers of part_001 satisfy the full CORS set. -/
theorem fullCors_outbound001 {β : Type} (vr : UpstreamResponse β) :
    fullCorsSet (Part001.outboundHeaders vr) := by
  unfold Part001.outboundHeaders fullCorsSet
  split <;> simp [Headers.get_set, Part001.createCorsHeaders]

/-- C2 (amended): every response of the serve.ts handler and of the type-aware
variant carries the full CORS header set (origin *, methods GET, OPTIONS, allowed
request headers Content-Type, Range, exposed headers Content-Length,
Content-Range); the part_000 variant attaches only the three-header subset with
Access-Control-Allow-Headers limited to Content-Type and nothing exposed. -/
theorem claimC2 :
    (∀ (α β : Type) (env : Serve.Env α β) (req : Request),
      fullCorsSet (Serve.handler env req).response.headers) ∧
    (∀ (γ β : Type) (env : Part001.Env γ β) (req : Request),
      fullCorsSet (Part001.handler env req).response.headers) ∧
    (∀ (α β : Type) (env : Part000.Env α) (req : Request),
      part000CorsSet (Part000.handler (β := β) env req).response.headers) := by
  refine ⟨?_, ?_, ?_⟩
  · intro α β env req
    by_cases hm : req.method = "OPTIONS"
    · simp [Serve.handler, hm, fullCorsSet, Serve.createCorsHeaders, Headers.get_set]
    · by_cases hu : truthyStr req.urlParam = false
      · simp [Serve.handler, hm, hu, mkResponse, Headers.has, Headers.get_set,
          fullCorsSet, Serve.createCorsHeaders]
      · by_cases hd : req.hasData
        · rcases hi : env.getVideoInfoResult with e | info <;>
            simp [Serve.handler, hm, hu, hd, hi, mkResponse, Headers.has,
              Headers.get_set, fullCorsSet, Serve.createCorsHeaders]
        · rcases hv : env.getVideoUrlResult with e | u
          · simp [Serve.handler, hm, hu, hd, hv, Serve.proxyErrorResponse, mkResponse,
              Headers.has, Headers.get_set, fullCorsSet, Serve.createCorsHeaders]
          · by_cases ht : truthyStr u = false
            · simp [Serve.handler, hm, hu, hd, hv, ht, Serve.proxyErrorResponse,
                mkResponse, Headers.has, Headers.get_set, fullCorsSet,
                Serve.createCorsHeaders]
            · rcases hf : env.fetchResult with e | vr
              · simp [Serve.handler, hm, hu, hd, hv, ht, hf, Serve.proxyErrorResponse,
                  mkResponse, Headers.has, Headers.get_set, fullCorsSet,
                  Serve.createCorsHeaders]
              · rcases hb : vr.body with _ | b
                · simp [Serve.handler, hm, hu, hd, hv, ht, hf, hb,
                    Serve.proxyErrorResponse, mkResponse, Headers.has, Headers.get_set,
                    fullCorsSet, Serve.createCorsHeaders]
                · by_cases hok : vr.ok
                  · simpa [Serve.handler, hm, hu, hd, hv, ht, hf, hb, hok] using
                      fullCors_outbound (β := β) vr
                  · simp [Serve.handler, hm, hu, hd, hv, ht, hf, hb, hok,
                      Serve.proxyErrorResponse, mkResponse, Headers.has,
                      Headers.get_set, fullCorsSet, Serve.createCorsHeaders]
  · intro γ β env req
    by_cases hm : req.method = "OPTIONS"
    · simp [Part001.handler, hm, fullCorsSet, Part001.createCorsHeaders,
        Headers.get_set]
    · by_cases hu : truthyStr req.urlParam = false
      · simp [Part001.handler, hm, hu, mkResponse, Headers.has, Headers.get_set,
          fullCorsSet, Part001.createCorsHeaders]
      · rcases hi : env.getVideoInfoResult with e | d
        · simp [Part001.handler, hm, hu, hi, Part001.genericErrorResponse, mkResponse,
            Headers.has, Headers.get_set, fullCorsSet, Part001.createCorsHeaders]
        · by_cases hd : req.hasData
          · simp [Part001.handler, hm, hu, hi, hd, mkResponse, Headers.has,
              Headers.get_set, fullCorsSet, Part001.createCorsHeaders]
          · by_cases hvid : d.type = some "video" ∧ truthyStr d.video_url = true
            · rcases hf : env.fetchResult with e | vr
              · simp [Part001.handler, hm, hu, hi, hd, hvid, hf,
                  Part001.genericErrorResponse, mkResponse, Headers.has,
                  Headers.get_set, fullCorsSet, Part001.createCorsHeaders]
              · rcases hb : vr.body with _ | b
                · simp [Part001.handler, hm, hu, hi, hd, hvid, hf, hb,
                    Part001.genericErrorResponse, mkResponse, Headers.has,
                    Headers.get_set, fullCorsSet, Part001.createCorsHeaders]
                · by_cases hok : vr.ok
                  · simpa [Part001.handler, hm, hu, hi, hd, hvid, hf, hb, hok] using
                      fullCors_outbound001 (β := β) vr
                  · simp [Part001.handler, hm, hu, hi, hd, hvid, hf, hb, hok,
                      Part001.genericErrorResponse, mkResponse, Headers.has,
                      Headers.get_set, fullCorsSet, Part001.createCorsHeaders]
            · by_cases himg : d.type = some "img"
              · simp [Part001.handler, hm, hu, hi, hd, hvid, himg, mkResponse,
                  Headers.has, Headers.get_set, fullCorsSet, Part001.createCorsHeaders]
              · simp [Part001.handler, hm, hu, hi, hd, hvid, himg,
                  Part001.genericErrorResponse, mkResponse, Headers.has,
                  Headers.get_set, fullCorsSet, Part001.createCorsHeaders]
  · intro α β env req
    by_cases hm : req.method = "OPTIONS"
    · simp [Part000.handler, hm, part000CorsSet, Part000.createCorsHeaders,
        Headers.get_set]
    · by_cases hu : truthyStr req.urlParam = false
      · simp [Part000.handler, hm, hu, mkResponse, Headers.has, Headers.get_set,
          part000CorsSet, Part000.createCorsHeaders]
      · by_cases hd : req.hasData
        · rcases hi : env.getVideoInfoResult with e | info <;>
            simp [Part000.handler, hm, hu, hd, hi, mkResponse, Headers.has,
              Headers.get_set, part000CorsSet, Part000.createCorsHeaders]
        · rcases hv : env.getVideoUrlResult with e | u
          · simp [Part000.handler, hm, hu, hd, hv, mkResponse, Headers.has,
              Headers.get_set, part000CorsSet, Part000.createCorsHeaders]
          · rcases u with _ | s <;>
              simp [Part000.handler, hm, hu, hd, hv, mkResponse, Headers.has,
                Headers.get_set, part000CorsSet, Part000.createCorsHeaders]

/-- C2 counterexample: the part_000 variant's preflight response exposes no
response headers and allows only Content-Type, so the full CORS header set is not
present on every response of the repository's handlers. -/
theorem claimC2_counterexample :
    (Part000.handler (β := Unit) p0EnvOk optionsReq).response.headers.get
      "access-control-expose-headers" = none ∧
    (Part000.handler (β := Unit) p0EnvOk optionsReq).response.headers.get
      "access-control-allow-headers" = some "Content-Type" := ⟨rfl, rfl⟩

/-- C1: on the media-relay path that resolves to a video, the single upstream fetch
carries the caller's Range header verbatim when one was sent and no Range header
otherwise, and a 206 upstream response with a Content-Range header is answered with
status 206 and the same Content-Range — in both the serve.ts handler and the
type-aware variant. -/
theorem claimC1 :
    (∀ (α β : Type) (env : Serve.Env α β) (req : Request) (u : Option String),
      req.method ≠ "OPTIONS" → truthyStr req.urlParam = true → req.hasData = false →
      env.getVideoUrlResult = Except.ok u → truthyStr u = true →
      (Serve.handler env req).fetchCalls
          = [(u.getD "", Serve.videoRequestHeaders req)] ∧
      (req.headers.has "range" = true →
        (Serve.videoRequestHeaders req).get "range" = req.headers.get "range") ∧
      (req.headers.has "range" = false →
        (Serve.videoRequestHeaders req).has "range" = false) ∧
      (∀ (vr : UpstreamResponse β) (b : β) (cr : String),
        env.fetchResult = Except.ok vr → vr.status = 206 → vr.body = some b →
        vr.headers.get "content-range" = some cr →
        (Serve.handler env req).response.status = 206 ∧
        (Serve.handler env req).response.headers.get "content-range" = some cr)) ∧
    (∀ (γ β : Type) (env : Part001.Env γ β) (req : Request) (d : Part001.DyData γ),
      req.method ≠ "OPTIONS" → truthyStr req.urlParam = true → req.hasData = false →
      env.getVideoInfoResult = Except.ok d → d.type = some "video" →
      truthyStr d.video_url = true →
      (Part001.handler env req).fetchCalls
          = [(d.video_url.getD "", Part001.videoRequestHeaders req)] ∧
      (req.headers.has "range" = true →
        (Part001.videoRequestHeaders req).get "range" = req.headers.get "range") ∧
      (req.headers.has "range" = false →
        (Part001.videoRequestHeaders req).has "range" = false) ∧
      (∀ (vr : UpstreamResponse β) (b : β) (cr : String),
        env.fetchResult = Except.ok vr → vr.status = 206 → vr.body = some b →
        vr.headers.get "content-range" = some cr →
        (Part001.handler env req).response.status = 206 ∧
        (Part001.handler env req).response.headers.get "content-range" = some cr)) := by
  constructor
  · intro α β env req u hm hu hd hv ht
    refine ⟨?_, videoRequestHeaders_range req, videoRequestHeaders_no_range req, ?_⟩
    · rcases hf : env.fetchResult with e | vr
      · simp [Serve.handler, hm, hu, hd, hv, ht, hf]
      · rcases hb : vr.body with _ | b
        · simp [Serve.handler, hm, hu, hd, hv, ht, hf, hb]
        · by_cases hok : vr.ok
          · simp [Serve.handler, hm, hu, hd, hv, ht, hf, hb, hok]
          · simp [Serve.handler, hm, hu, hd, hv, ht, hf, hb, hok]
    · intro vr b cr hf h206 hb hcr
      have hok : vr.ok = true := by simp [UpstreamResponse.ok, h206]
      constructor
      · simp [Serve.handler, hm, hu, hd, hv, ht, hf, hb, hok, h206]
      · simp [Serve.handler, hm, hu, hd, hv, ht, hf, hb, hok, Serve.outboundHeaders,
          Headers.has, hcr, Headers.get_set]
  · intro γ β env req d hm hu hd hi hty hvu
    refine ⟨?_, ?_, ?_, ?_⟩
    · rcases hf : env.fetchResult with e | vr
      · simp [Part001.handler, hm, hu, hd, hi, hty, hvu, hf]
      · rcases hb : vr.body with _ | b
        · simp [Part001.handler, hm, hu, hd, hi, hty, hvu, hf, hb]
        · by_cases hok : vr.ok
          · simp [Part001.handler, hm, hu, hd, hi, hty, hvu, hf, hb, hok]
          · simp [Part001.handler, hm, hu, hd, hi, hty, hvu, hf, hb, hok]
    · rw [part001_videoRequestHeaders_eq]
      exact videoRequestHeaders_range req
    · rw [part001_videoRequestHeaders_eq]
      exact videoRequestHeaders_no_range req
    · intro vr b cr hf h206 hb hcr
      have hok : vr.ok = true := by simp [UpstreamResponse.ok, h206]
      constructor
      · simp [Part001.handler, hm, hu, hd, hi, hty, hvu, hf, hb, hok, h206]
      · simp [Part001.handler, hm, hu, hd, hi, hty, hvu, hf, hb, hok,
          Part001.outboundHeaders, Headers.has, hcr, Headers.get_set]

/-- C1 witness: a ranged GET relayed through the 206 environment. -/
theorem claimC1_witness :
    getRangeReq.headers.has "range" = true ∧
    serveEnv206.getVideoUrlResult = Except.ok (some sampleVideoUrl) ∧
    (Serve.handler serveEnv206 getRangeReq).fetchCalls
        = [((some sampleVideoUrl).getD "", Serve.videoRequestHeaders getRangeReq)] ∧
    (Serve.videoRequestHeaders getRangeReq).get "range"
        = getRangeReq.headers.get "range" ∧
    (Serve.handler serveEnv206 getRangeReq).response.status = 206 ∧
    (Serve.handler serveEnv206 getRangeReq).response.headers.get "content-range"
        = some "bytes 100-199/5000" := by
  have H := claimC1.1 Unit Unit serveEnv206 getRangeReq (some sampleVideoUrl)
    (by decide) rfl rfl rfl rfl
  have H2 := H.2.2.2 upstream206 () "bytes 100-199/5000" rfl rfl rfl (by decide)
  exact ⟨by decide, rfl, H.1, H.2.1 (by decide), H2.1, H2.2⟩

/-- The part_001 outbound relay headers coincide with those of serve.ts. -/
theorem part001_outboundHeaders_eq {β : Type} (vr : UpstreamResponse β) :
    Part001.outboundHeaders vr = Serve.outboundHeaders vr := rfl

/-- Outbound Content-Type is the upstream one, defaulting to video/mp4. -/
theorem outbound_ct {β : Type} (vr : UpstreamResponse β) :
    (Serve.outboundHeaders vr).get "content-type"
      = some (jsOr (vr.headers.get "Content-Type") "video/mp4") := by
  unfold Serve.outboundHeaders
  split <;> simp [Headers.get_set]

/-- Outbound Content-Length is the upstream one, defaulting to 0. -/
theorem outbound_cl {β : Type} (vr : UpstreamResponse β) :
    (Serve.outboundHeaders vr).get "content-length"
      = some (jsOr (vr.headers.get "Content-Length") "0") := by
  unfold Serve.outboundHeaders
  split <;> simp [Headers.get_set]

/-- Outbound Accept-Ranges is always bytes. -/
theorem outbound_ar {β : Type} (vr : UpstreamResponse β) :
    (Serve.outboundHeaders vr).get "accept-ranges" = some "bytes" := by
  unfold Serve.outboundHeaders
  split <;> simp [Headers.get_set]

/-- C3: a media-relay GET that resolves to a video and fetches upstream
successfully (200 or 206, body present) relays the upstream byte stream as the
response body with the upstream's status, copies Content-Type (default video/mp4
when absent) and Content-Length (default 0 when absent), and always sets
Accept-Ranges: bytes — in both the serve.ts handler and the type-aware variant. -/
theorem claimC3 :
    (∀ (α β : Type) (env : Serve.Env α β) (req : Request) (u : Option String)
        (vr : UpstreamResponse β) (b : β),
      req.method = "GET" → truthyStr req.urlParam = true → req.hasData = false →
      env.getVideoUrlResult = Except.ok u → truthyStr u = true →
      env.fetchResult = Except.ok vr → vr.body = some b →
      (vr.status = 200 ∨ vr.status = 206) →
      (Serve.handler env req).response.body = some (Body.stream b) ∧
      (Serve.handler env req).response.status = vr.status ∧
      (vr.headers.get "Content-Type" = none →
        (Serve.handler env req).response.headers.get "content-type"
          = some "video/mp4") ∧
      (∀ v, vr.headers.get "Content-Type" = some v → v ≠ "" →
        (Serve.handler env req).response.headers.get "content-type" = some v) ∧
      (vr.headers.get "Content-Length" = none →
        (Serve.handler env req).response.headers.get "content-length" = some "0") ∧
      (∀ v, vr.headers.get "Content-Length" = some v → v ≠ "" →
        (Serve.handler env req).response.headers.get "content-length" = some v) ∧
      (Serve.handler env req).response.headers.get "accept-ranges" = some "bytes") ∧
    (∀ (γ β : Type) (env : Part001.Env γ β) (req : Request) (d : Part001.DyData γ)
        (vr : UpstreamResponse β) (b : β),
      req.method = "GET" → truthyStr req.urlParam = true → req.hasData = false →
      env.getVideoInfoResult = Except.ok d → d.type = some "video" →
      truthyStr d.video_url = true →
      env.fetchResult = Except.ok vr → vr.body = some b →
      (vr.status = 200 ∨ vr.status = 206) →
      (Part001.handler env req).response.body = some (Body.stream b) ∧
      (Part001.handler env req).response.status = vr.status ∧
      (vr.headers.get "Content-Type" = none →
        (Part001.handler env req).response.headers.get "content-type"
          = some "video/mp4") ∧
      (∀ v, vr.headers.get "Content-Type" = some v → v ≠ "" →
        (Part001.handler env req).response.headers.get "content-type" = some v) ∧
      (vr.headers.get "Content-Length" = none →
        (Part001.handler env req).response.headers.get "content-length" = some "0") ∧
      (∀ v, vr.headers.get "Content-Length" = some v → v ≠ "" →
        (Part001.handler env req).response.headers.get "content-length" = some v) ∧
      (Part001.handler env req).response.headers.get "accept-ranges"
        = some "bytes") := by
  constructor
  · intro α β env req u vr b hg hu hd hv ht hf hb hs
    have hm : req.method ≠ "OPTIONS" := by rw [hg]; decide
    have hok : vr.ok = true := by
      rcases hs with h | h <;> simp [UpstreamResponse.ok, h]
    have hh : (Serve.handler env req).response
        = mkResponse (some (Body.stream b)) vr.status (Serve.outboundHeaders vr) := by
      simp [Serve.handler, hm, hu, hd, hv, ht, hf, hb, hok]
    refine ⟨?_, ?_, ?_, ?_, ?_, ?_, ?_⟩
    · rw [hh]; simp
    · rw [hh]; simp
    · intro hct
      rw [hh, mkResponse_headers_stream, outbound_ct, hct]
      rfl
    · intro v hct hne
      rw [hh, mkResponse_headers_stream, outbound_ct, hct]
      simp [jsOr, hne]
    · intro hcl
      rw [hh, mkResponse_headers_stream, outbound_cl, hcl]
      rfl
    · intro v hcl hne
      rw [hh, mkResponse_headers_stream, outbound_cl, hcl]
      simp [jsOr, hne]
    · rw [hh, mkResponse_headers_stream, outbound_ar]
  · intro γ β env req d vr b hg hu hd hi hty hvu hf hb hs
    have hm : req.method ≠ "OPTIONS" := by rw [hg]; decide
    have hok : vr.ok = true := by
      rcases hs with h | h <;> simp [UpstreamResponse.ok, h]
    have hh : (Part001.handler env req).response
        = mkResponse (some (Body.stream b)) vr.status (Serve.outboundHeaders vr) := by
      simp [Part001.handler, hm, hu, hd, hi, hty, hvu, hf, hb, hok,
        part001_outboundHeaders_eq]
    refine ⟨?_, ?_, ?_, ?_, ?_, ?_, ?_⟩
    · rw [hh]; simp
    · rw [hh]; simp
    · intro hct
      rw [hh, mkResponse_headers_stream, outbound_ct, hct]
      rfl
    · intro v hct hne
      rw [hh, mkResponse_headers_stream, outbound_ct, hct]
      simp [jsOr, hne]
    · intro hcl
      rw [hh, mkResponse_headers_stream, outbound_cl, hcl]
      rfl
    · intro v hcl hne
      rw [hh, mkResponse_headers_stream, outbound_cl, hcl]
      simp [jsOr, hne]
    · rw [hh, mkResponse_headers_stream, outbound_ar]

/-- C3 witness: a plain GET relayed through the 200 environment (upstream carries
Content-Length 5000 and no Content-Type). -/
theorem claimC3_witness :
    upstream200.status = 200 ∧
    ((Serve.handler serveEnv200 getReq).response.body = some (Body.stream ()) ∧
      (Serve.handler serveEnv200 getReq).response.status = 200 ∧
      (Serve.handler serveEnv200 getReq).response.headers.get "content-type"
        = some "video/mp4" ∧
      (Serve.handler serveEnv200 getReq).response.headers.get "content-length"
        = some "5000" ∧
      (Serve.handler serveEnv200 getReq).response.headers.get "accept-ranges"
        = some "bytes") := by
  have H := claimC3.1 Unit Unit serveEnv200 getReq (some sampleVideoUrl) upstream200 ()
    rfl rfl rfl rfl rfl rfl rfl (Or.inl rfl)
  exact ⟨rfl, H.1, H.2.1.trans rfl, H.2.2.1 (by decide),
    H.2.2.2.2.2.1 "5000" (by decide) (by decide), H.2.2.2.2.2.2⟩

/-- C6 (amended): when the media-relay path has resolved a video but the upstream
fetch rejects, returns a status outside the 2xx range (response.ok false, not the
claim's "not 200 or 206"), or returns no body, the response is a 500 with the
generic proxy-error message (the upstream status and body are not forwarded) — in
both the serve.ts handler and the type-aware variant. -/
theorem claimC6 :
    (∀ (α β : Type) (env : Serve.Env α β) (req : Request) (u : Option String),
      req.method ≠ "OPTIONS" → truthyStr req.urlParam = true → req.hasData = false →
      env.getVideoUrlResult = Except.ok u → truthyStr u = true →
      (env.fetchResult = Except.error () →
        (Serve.handler env req).response.status = 500 ∧
        (Serve.handler env req).response.body
          = some (Body.text "An internal server error occurred while proxying video.")) ∧
      (∀ vr, env.fetchResult = Except.ok vr → vr.ok = false →
        (Serve.handler env req).response.status = 500 ∧
        (Serve.handler env req).response.body
          = some (Body.text "An internal server error occurred while proxying video.")) ∧
      (∀ vr, env.fetchResult = Except.ok vr → vr.body = none →
        (Serve.handler env req).response.status = 500 ∧
        (Serve.handler env req).response.body
          = some (Body.text "An internal server error occurred while proxying video."))) ∧
    (∀ (γ β : Type) (env : Part001.Env γ β) (req : Request) (d : Part001.DyData γ),
      req.method ≠ "OPTIONS" → truthyStr req.urlParam = true → req.hasData = false →
      env.getVideoInfoResult = Except.ok d → d.type = some "video" →
      truthyStr d.video_url = true →
      (env.fetchResult = Except.error () →
        (Part001.handler env req).response.status = 500 ∧
        (Part001.handler env req).response.body
          = some (Body.text "服务器在处理请求时发生内部错误。")) ∧
      (∀ vr, env.fetchResult = Except.ok vr → vr.ok = false →
        (Part001.handler env req).response.status = 500 ∧
        (Part001.handler env req).response.body
          = some (Body.text "服务器在处理请求时发生内部错误。")) ∧
      (∀ vr, env.fetchResult = Except.ok vr → vr.body = none →
        (Part001.handler env req).response.status = 500 ∧
        (Part001.handler env req).response.body
          = some (Body.text "服务器在处理请求时发生内部错误。"))) := by
  constructor
  · intro α β env req u hm hu hd hv ht
    refine ⟨?_, ?_, ?_⟩
    · intro hf
      simp [Serve.handler, hm, hu, hd, hv, ht, hf, Serve.proxyErrorResponse]
    · intro vr hf hok
      rcases hb : vr.body with _ | b <;>
        simp [Serve.handler, hm, hu, hd, hv, ht, hf, hb, hok, Serve.proxyErrorResponse]
    · intro vr hf hb
      simp [Serve.handler, hm, hu, hd, hv, ht, hf, hb, Serve.proxyErrorResponse]
  · intro γ β env req d hm hu hd hi hty hvu
    refine ⟨?_, ?_, ?_⟩
    · intro hf
      simp [Part001.handler, hm, hu, hd, hi, hty, hvu, hf,
        Part001.genericErrorResponse]
    · intro vr hf hok
      rcases hb : vr.body with _ | b <;>
        simp [Part001.handler, hm, hu, hd, hi, hty, hvu, hf, hb, hok,
          Part001.genericErrorResponse]
    · intro vr hf hb
      simp [Part001.handler, hm, hu, hd, hi, hty, hvu, hf, hb,
        Part001.genericErrorResponse]

/-- C6 witness: the upstream answers 404, the gateway answers 500 generic. -/
theorem claimC6_witness :
    serveEnv404.fetchResult = Except.ok upstream404 ∧ upstream404.ok = false ∧
    ((Serve.handler serveEnv404 getReq).response.status = 500 ∧
      (Serve.handler serveEnv404 getReq).response.body
        = some (Body.text "An internal server error occurred while proxying video.")) :=
  ⟨rfl, by decide,
    (claimC6.1 Unit Unit serveEnv404 getReq (some sampleVideoUrl) (by decide) rfl rfl
        rfl rfl).2.1 upstream404 rfl (by decide)⟩

/-- C6 counterexample: the code gates the failure path on response.ok (any 2xx
passes), not on the status being 200 or 206 — an upstream 203 with a body, whose
status is neither 200 nor 206, is relayed with status 203 and the upstream byte
stream, not answered with a 500-class error. -/
theorem claimC6_counterexample :
    serveEnv203.fetchResult = Except.ok upstream203 ∧
    upstream203.status ≠ 200 ∧ upstream203.status ≠ 206 ∧
    upstream203.body = some () ∧
    (Serve.handler serveEnv203 getReq).response.status = 203 ∧
    (Serve.handler serveEnv203 getReq).response.status ≠ 500 ∧
    (Serve.handler serveEnv203 getReq).response.body = some (Body.stream ()) :=
  ⟨rfl, by decide, by decide, rfl, rfl, by decide, rfl⟩

/-- C4: a media-relay request whose resolved content type is an image gallery is
answered 400 with the guidance message and performs no upstream media fetch
(type-aware variant; serve.ts has no gallery branch and its resolver never yields
a gallery on this path). -/
theorem claimC4 :
    ∀ (γ β : Type) (env : Part001.Env γ β) (req : Request) (d : Part001.DyData γ),
      req.method ≠ "OPTIONS" → truthyStr req.urlParam = true → req.hasData = false →
      env.getVideoInfoResult = Except.ok d → d.type = some "img" →
      (Part001.handler env req).response.status = 400 ∧
      (Part001.handler env req).response.body = some (Body.text Part001.imgMessage) ∧
      (Part001.handler env req).fetchCalls = [] := by
  intro γ β env req d hm hu hd hi hty
  simp [Part001.handler, hm, hu, hd, hi, hty, mkResponse, Headers.has,
    Headers.get_set, Part001.createCorsHeaders]

/-- C4 witness: a relayed image-gallery post. -/
theorem claimC4_witness :
    p1EnvImg.getVideoInfoResult = Except.ok dyImg ∧ dyImg.type = some "img" ∧
    ((Part001.handler p1EnvImg getReq).response.status = 400 ∧
      (Part001.handler p1EnvImg getReq).response.body
        = some (Body.text Part001.imgMessage) ∧
      (Part001.handler p1EnvImg getReq).fetchCalls = []) :=
  ⟨rfl, rfl, claimC4 Unit Unit p1EnvImg getReq dyImg (by decide) rfl rfl rfl rfl⟩

/-- C10: in the type-aware variant, a media-relay request whose resolved metadata
is of type video but has an empty or absent video_url falls through to the generic
unknown-content branch: 500 with the generic message, not the 400 gallery error,
and no upstream fetch. -/
theorem claimC10 :
    ∀ (γ β : Type) (env : Part001.Env γ β) (req : Request) (d : Part001.DyData γ),
      req.method ≠ "OPTIONS" → truthyStr req.urlParam = true → req.hasData = false →
      env.getVideoInfoResult = Except.ok d → d.type = some "video" →
      truthyStr d.video_url = false →
      (Part001.handler env req).response.status = 500 ∧
      (Part001.handler env req).response.body
        = some (Body.text "服务器在处理请求时发生内部错误。") ∧
      (Part001.handler env req).response.status ≠ 400 ∧
      (Part001.handler env req).fetchCalls = [] := by
  intro γ β env req d hm hu hd hi hty hvu
  simp [Part001.handler, hm, hu, hd, hi, hty, hvu, Part001.genericErrorResponse,
    mkResponse, Headers.has, Headers.get_set, Part001.createCorsHeaders]

/-- C10 witness: a video record with an empty video_url. -/
theorem claimC10_witness :
    p1EnvNoUrl.getVideoInfoResult = Except.ok dyVideoNoUrl ∧
    dyVideoNoUrl.type = some "video" ∧ truthyStr dyVideoNoUrl.video_url = false ∧
    ((Part001.handler p1EnvNoUrl getReq).response.status = 500 ∧
      (Part001.handler p1EnvNoUrl getReq).response.body
        = some (Body.text "服务器在处理请求时发生内部错误。") ∧
      (Part001.handler p1EnvNoUrl getReq).response.status ≠ 400 ∧
      (Part001.handler p1EnvNoUrl getReq).fetchCalls = []) :=
  ⟨rfl, rfl, rfl,
    claimC10 Unit Unit p1EnvNoUrl getReq dyVideoNoUrl (by decide) rfl rfl rfl rfl rfl⟩

/-- Every upstream fetch the serve.ts handler performs uses the upstream request
headers built by videoRequestHeaders. -/
theorem serve_fetch_headers {α β : Type} (env : Serve.Env α β) (req : Request)
    (p : String × Headers) (hp : p ∈ (Serve.handler env req).fetchCalls) :
    p.2 = Serve.videoRequestHeaders req := by
  by_cases hm : req.method = "OPTIONS"
  · simp [Serve.handler, hm] at hp
  · by_cases hu : truthyStr req.urlParam = false
    · simp [Serve.handler, hm, hu] at hp
    · by_cases hd : req.hasData
      · rcases hi : env.getVideoInfoResult with e | i <;>
          simp [Serve.handler, hm, hu, hd, hi] at hp
      · rcases hv : env.getVideoUrlResult with e | u
        · simp [Serve.handler, hm, hu, hd, hv] at hp
        · by_cases ht : truthyStr u = false
          · simp [Serve.handler, hm, hu, hd, hv, ht] at hp
          · rcases hf : env.fetchResult with e | vr
            · simp [Serve.handler, hm, hu, hd, hv, ht, hf] at hp
              simp [hp]
            · rcases hb : vr.body with _ | b
              · simp [Serve.handler, hm, hu, hd, hv, ht, hf, hb] at hp
                simp [hp]
              · by_cases hok : vr.ok
                · simp [Serve.handler, hm, hu, hd, hv, ht, hf, hb, hok] at hp
                  simp [hp]
                · simp [Serve.handler, hm, hu, hd, hv, ht, hf, hb, hok] at hp
                  simp [hp]

/-- Every upstream fetch the part_001 handler performs uses the upstream request
headers built by videoRequestHeaders. -/
theorem part001_fetch_headers {γ β : Type} (env : Part001.Env γ β) (req : Request)
    (p : String × Headers) (hp : p ∈ (Part001.handler env req).fetchCalls) :
    p.2 = Part001.videoRequestHeaders req := by
  by_cases hm : req.method = "OPTIONS"
  · simp [Part001.handler, hm] at hp
  · by_cases hu : truthyStr req.urlParam = false
    · simp [Part001.handler, hm, hu] at hp
    · rcases hi : env.getVideoInfoResult with e | d
      · simp [Part001.handler, hm, hu, hi] at hp
      · by_cases hd : req.hasData
        · simp [Part001.handler, hm, hu, hi, hd] at hp
        · by_cases hvid : d.type = some "video" ∧ truthyStr d.video_url = true
          · rcases hf : env.fetchResult with e | vr
            · simp [Part001.handler, hm, hu, hi, hd, hvid, hf] at hp
              simp [hp]
            · rcases hb : vr.body with _ | b
              · simp [Part001.handler, hm, hu, hi, hd, hvid, hf, hb] at hp
                simp [hp]
              · by_cases hok : vr.ok
                · simp [Part001.handler, hm, hu, hi, hd, hvid, hf, hb, hok] at hp
                  simp [hp]
                · simp [Part001.handler, hm, hu, hi, hd, hvid, hf, hb, hok] at hp
                  simp [hp]
          · by_cases himg : d.type = some "img"
            · simp [Part001.handler, hm, hu, hi, hd, hvid, himg] at hp
            · simp [Part001.handler, hm, hu, hi, hd, hvid, himg] at hp

/-- C8: every upstream media fetch performed by either handler carries the
Referer https://www.douyin.com/ and the browser-like Chrome User-Agent string. -/
theorem claimC8 :
    (∀ (α β : Type) (env : Serve.Env α β) (req : Request) (p : String × Headers),
      p ∈ (Serve.handler env req).fetchCalls →
      p.2.get "referer" = some "https://www.douyin.com/" ∧
      p.2.get "user-agent" = some Serve.uaString) ∧
    (∀ (γ β : Type) (env : Part001.Env γ β) (req : Request) (p : String × Headers),
      p ∈ (Part001.handler env req).fetchCalls →
      p.2.get "referer" = some "https://www.douyin.com/" ∧
      p.2.get "user-agent" = some Serve.uaString) := by
  constructor
  · intro α β env req p hp
    rw [serve_fetch_headers env req p hp]
    exact videoRequestHeaders_identity req
  · intro γ β env req p hp
    rw [part001_fetch_headers env req p hp, part001_videoRequestHeaders_eq]
    exact videoRequestHeaders_identity req

/-- C8 witness: the fetch performed for a plain relayed GET. -/
theorem claimC8_witness :
    (sampleVideoUrl, Serve.videoRequestHeaders getReq)
        ∈ (Serve.handler serveEnv200 getReq).fetchCalls ∧
    ((sampleVideoUrl, Serve.videoRequestHeaders getReq).2.get "referer"
        = some "https://www.douyin.com/" ∧
      (sampleVideoUrl, Serve.videoRequestHeaders getReq).2.get "user-agent"
        = some Serve.uaString) := by
  have hp : (sampleVideoUrl, Serve.videoRequestHeaders getReq)
      ∈ (Serve.handler serveEnv200 getReq).fetchCalls := List.Mem.head _
  exact ⟨hp, claimC8.1 Unit Unit serveEnv200 getReq _ hp⟩
